import Mathlib

/-!
Shallow embedding of the synchronization decision core of
`otagao/touhou-local-sync`, together with proofs about it.

Conventions of the embedding:
* `time.Time` values enter the comparison logic only through `.Unix()`
  (see `TimeDiffSeconds`, `TimeWithinDrift`, `IsNewerThan` in the source),
  so modification times are modelled as `Int` unix seconds.
* Go `int64` sizes are modelled as `Int`; the arithmetic performed on them
  (`local.Size - remote.Size`, `2 * size`) never wraps for real file sizes
  (all below 2^62), so exact integer arithmetic is the faithful model.
* the Go code compares `sizeRatio > 2.0` where `sizeRatio` is a `float64`
  quotient of the two sizes (or the sentinel `999.0` when the divisor is
  not positive).  For a positive divisor the exact-real test
  `larger / smaller > 2` is `larger > 2 * smaller`; the float division
  agrees with the exact test for all sizes below 2^52, which covers every
  real file.  The embedding uses the exact integer form.
* `Reason` strings keep the fixed text of the Go sources but elide the
  values interpolated by `fmt.Sprintf` (sizes, ratios, formatted times);
  no property below depends on `Reason`.
-/

/-- `models.FileMetadata` (internal/models): one file at one location. -/
structure FileMetadata where
  Path : String
  Exists : Bool
  Readable : Bool
  Size : Int
  ModTime : Int
  Hash : String
deriving DecidableEq, Repr

/-- `models.ComparisonResult` (internal/models): output of the comparator.
`LocalMeta`/`RemoteMeta` are kept as the metadata values themselves. -/
structure ComparisonResult where
  LocalMeta : FileMetadata
  RemoteMeta : FileMetadata
  HashMatch : Bool
  SizeDiff : Int
  TimeDiff : Int
  Recommendation : String
  Reason : String
deriving DecidableEq, Repr

/-- `utils.TimeDriftTolerance`: timestamps within 3 seconds count as equal. -/
def TimeDriftTolerance : Nat := 3

/-- `utils.TimeDiffSeconds`: `t1.Unix() - t2.Unix()`. -/
def TimeDiffSeconds (t1 t2 : Int) : Int := t1 - t2

/-- `utils.TimeWithinDrift`: absolute difference at most the tolerance.
(Go computes `math.Abs(float64(t1.Unix()-t2.Unix())) <= 3`; the float
detour is exact for all differences below 2^53.) -/
def TimeWithinDrift (t1 t2 : Int) : Bool :=
  decide ((TimeDiffSeconds t1 t2).natAbs ≤ TimeDriftTolerance)

/-- `utils.IsNewerThan`: `t1` more than the tolerance ahead of `t2`. -/
def IsNewerThan (t1 t2 : Int) : Bool :=
  decide (TimeDiffSeconds t1 t2 > (TimeDriftTolerance : Int))

/-- `sync.MaxSizeRatio = 2.0`, as the integer threshold of the exact test. -/
def MaxSizeRatio : Int := 2

/-- The suspicious-size test the Go comparators run when one side is
strictly larger: `sizeRatio > MaxSizeRatio`, where `sizeRatio` is
`larger/smaller` when `smaller > 0` and the sentinel `999.0` otherwise. -/
def sizeRatioSuspicious (larger smaller : Int) : Bool :=
  if 0 < smaller then decide (MaxSizeRatio * smaller < larger) else true

/-- The comparator's preference signals.  Go stores them in strings drawn
from the closed set `"local"` / `"remote"` / `"equal"`; the closed set is
modelled as an inductive type. -/
inductive Preference where
  | localSide
  | remoteSide
  | equalSide
deriving DecidableEq, Repr

/-- The size-preference signal: which side a strictly larger size favors.
Go computes it inline from `result.SizeDiff = local.Size - remote.Size`. -/
def sizePreferenceOf (sizeDiff : Int) : Preference :=
  if 0 < sizeDiff then .localSide else if sizeDiff < 0 then .remoteSide else .equalSide

/-- The time-preference signal: drift-tolerant comparison of the two
modification times, exactly as the combination comparator computes it
(`TimeWithinDrift`, then `IsNewerThan`). -/
def timePreferenceOf (lt rt : Int) : Preference :=
  if TimeWithinDrift lt rt then .equalSide
  else if IsNewerThan lt rt then .localSide
  else .remoteSide

/-- Builder for a `ComparisonResult`; mirrors the Go pattern of allocating
`result := &models.ComparisonResult{LocalMeta: local, RemoteMeta: remote}`
and assigning the remaining fields before each return.  Fields that a Go
early return leaves at their zero value are passed as `false` / `0`. -/
def mkResult (l r : FileMetadata) (hashMatch : Bool) (sizeDiff timeDiff : Int)
    (recommendation reason : String) : ComparisonResult :=
  { LocalMeta := l, RemoteMeta := r, HashMatch := hashMatch,
    SizeDiff := sizeDiff, TimeDiff := timeDiff,
    Recommendation := recommendation, Reason := reason }

@[simp] theorem mkResult_Recommendation (l r : FileMetadata) (hm : Bool)
    (sd td : Int) (rec rsn : String) :
    (mkResult l r hm sd td rec rsn).Recommendation = rec := rfl

@[simp] theorem mkResult_HashMatch (l r : FileMetadata) (hm : Bool)
    (sd td : Int) (rec rsn : String) :
    (mkResult l r hm sd td rec rsn).HashMatch = hm := rfl

@[simp] theorem mkResult_SizeDiff (l r : FileMetadata) (hm : Bool)
    (sd td : Int) (rec rsn : String) :
    (mkResult l r hm sd td rec rsn).SizeDiff = sd := rfl

@[simp] theorem mkResult_TimeDiff (l r : FileMetadata) (hm : Bool)
    (sd td : Int) (rec rsn : String) :
    (mkResult l r hm sd td rec rsn).TimeDiff = td := rfl

/-- `sync.CompareFiles` of src/unnamed/part_009 — the evidence-combination
comparator the spec adopts as canonical.  The branch structure mirrors the
source: existence checks, readability checks, hash short-circuit, the two
suspicious-size early returns, then the size/time preference combination. -/
def CompareFiles (l r : FileMetadata) : ComparisonResult :=
  if ¬ l.Exists ∧ ¬ r.Exists then
    mkResult l r false 0 0 "SKIP" "both files do not exist"
  else if ¬ l.Exists then
    mkResult l r false 0 0 "PUSH" "local file does not exist"
  else if ¬ r.Exists then
    mkResult l r false 0 0 "PULL" "remote file does not exist"
  else if ¬ l.Readable then
    mkResult l r false 0 0 "SKIP" "local file not readable"
  else if ¬ r.Readable then
    mkResult l r false 0 0 "SKIP" "remote file not readable"
  else
    -- Go sets result.SizeDiff := local.Size - remote.Size and
    -- result.TimeDiff := TimeDiffSeconds(...) here; the two expressions are
    -- written out in full below (Lean let-bindings obstruct the proofs).
    if l.Hash = r.Hash then
      mkResult l r true (l.Size - r.Size) (TimeDiffSeconds l.ModTime r.ModTime) "SKIP" "files are identical (hash match)"
    else if 0 < l.Size - r.Size ∧ sizeRatioSuspicious l.Size r.Size then
      mkResult l r false (l.Size - r.Size) (TimeDiffSeconds l.ModTime r.ModTime) "CONFLICT" "local file suspiciously large"
    else if l.Size - r.Size < 0 ∧ sizeRatioSuspicious r.Size l.Size then
      mkResult l r false (l.Size - r.Size) (TimeDiffSeconds l.ModTime r.ModTime) "CONFLICT" "remote file suspiciously large"
    else
      if sizePreferenceOf (l.Size - r.Size) = .equalSide ∧ timePreferenceOf l.ModTime r.ModTime = .equalSide then
        mkResult l r false (l.Size - r.Size) (TimeDiffSeconds l.ModTime r.ModTime) "SKIP"
          "files appear identical (size equal, mtime within drift)"
      else if sizePreferenceOf (l.Size - r.Size) = .localSide ∧ timePreferenceOf l.ModTime r.ModTime = .localSide then
        mkResult l r false (l.Size - r.Size) (TimeDiffSeconds l.ModTime r.ModTime) "PULL" "local file is both larger and newer"
      else if sizePreferenceOf (l.Size - r.Size) = .remoteSide ∧ timePreferenceOf l.ModTime r.ModTime = .remoteSide then
        mkResult l r false (l.Size - r.Size) (TimeDiffSeconds l.ModTime r.ModTime) "PUSH" "remote file is both larger and newer"
      else if sizePreferenceOf (l.Size - r.Size) = .equalSide then
        if timePreferenceOf l.ModTime r.ModTime = .localSide then
          mkResult l r false (l.Size - r.Size) (TimeDiffSeconds l.ModTime r.ModTime) "PULL" "local file is newer (size equal)"
        else
          mkResult l r false (l.Size - r.Size) (TimeDiffSeconds l.ModTime r.ModTime) "PUSH" "remote file is newer (size equal)"
      else if timePreferenceOf l.ModTime r.ModTime = .equalSide then
        if sizePreferenceOf (l.Size - r.Size) = .localSide then
          mkResult l r false (l.Size - r.Size) (TimeDiffSeconds l.ModTime r.ModTime) "PULL" "local file is larger (time within drift)"
        else
          mkResult l r false (l.Size - r.Size) (TimeDiffSeconds l.ModTime r.ModTime) "PUSH" "remote file is larger (time within drift)"
      else
        mkResult l r false (l.Size - r.Size) (TimeDiffSeconds l.ModTime r.ModTime) "CONFLICT" "evidence conflict"

/-- `sync.CompareFiles` of src/pkg/sync/compare.go — the superseded
single-signal comparator: identical prefix, but after the hash check it
decides on size alone when the sizes differ, and only otherwise on time. -/
def CompareFilesSingleSignal (l r : FileMetadata) : ComparisonResult :=
  if ¬ l.Exists ∧ ¬ r.Exists then
    mkResult l r false 0 0 "SKIP" "both files do not exist"
  else if ¬ l.Exists then
    mkResult l r false 0 0 "PUSH" "local file does not exist"
  else if ¬ r.Exists then
    mkResult l r false 0 0 "PULL" "remote file does not exist"
  else if ¬ l.Readable then
    mkResult l r false 0 0 "SKIP" "local file not readable"
  else if ¬ r.Readable then
    mkResult l r false 0 0 "SKIP" "remote file not readable"
  else
    -- Go sets result.SizeDiff := local.Size - remote.Size and
    -- result.TimeDiff := TimeDiffSeconds(...) here; the two expressions are
    -- written out in full below (Lean let-bindings obstruct the proofs).
    if l.Hash = r.Hash then
      mkResult l r true (l.Size - r.Size) (TimeDiffSeconds l.ModTime r.ModTime) "SKIP" "files are identical (hash match)"
    else if l.Size - r.Size ≠ 0 then
      if 0 < l.Size - r.Size then
        if sizeRatioSuspicious l.Size r.Size then
          mkResult l r false (l.Size - r.Size) (TimeDiffSeconds l.ModTime r.ModTime) "CONFLICT" "local file suspiciously large"
        else
          mkResult l r false (l.Size - r.Size) (TimeDiffSeconds l.ModTime r.ModTime) "PULL" "local file is larger"
      else
        if sizeRatioSuspicious r.Size l.Size then
          mkResult l r false (l.Size - r.Size) (TimeDiffSeconds l.ModTime r.ModTime) "CONFLICT" "remote file suspiciously large"
        else
          mkResult l r false (l.Size - r.Size) (TimeDiffSeconds l.ModTime r.ModTime) "PUSH" "remote file is larger"
    else if TimeWithinDrift l.ModTime r.ModTime then
      mkResult l r false (l.Size - r.Size) (TimeDiffSeconds l.ModTime r.ModTime) "SKIP"
        "files appear identical (size equal, mtime within drift)"
    else if IsNewerThan l.ModTime r.ModTime then
      mkResult l r false (l.Size - r.Size) (TimeDiffSeconds l.ModTime r.ModTime) "PULL" "local file is newer"
    else
      mkResult l r false (l.Size - r.Size) (TimeDiffSeconds l.ModTime r.ModTime) "PUSH" "remote file is newer"

/-! ## Characterization lemmas for the comparators -/

/-- The evidence-combination table of part_009 lines 130-206, keyed on the
two preference signals (the two disagreement pairs conflict). -/
def combineRec : Preference → Preference → String
  | .equalSide, .equalSide => "SKIP"
  | .localSide, .localSide => "PULL"
  | .remoteSide, .remoteSide => "PUSH"
  | .equalSide, .localSide => "PULL"
  | .equalSide, .remoteSide => "PUSH"
  | .localSide, .equalSide => "PULL"
  | .remoteSide, .equalSide => "PUSH"
  | .localSide, .remoteSide => "CONFLICT"
  | .remoteSide, .localSide => "CONFLICT"

theorem sizePreferenceOf_localSide (d : Int) (h : 0 < d) :
    sizePreferenceOf d = .localSide := by
  unfold sizePreferenceOf; rw [if_pos h]

theorem sizePreferenceOf_remoteSide (d : Int) (h : d < 0) :
    sizePreferenceOf d = .remoteSide := by
  unfold sizePreferenceOf; rw [if_neg (by omega), if_pos h]

theorem sizePreferenceOf_equalSide (d : Int) (h : d = 0) :
    sizePreferenceOf d = .equalSide := by
  unfold sizePreferenceOf; rw [if_neg (by omega), if_neg (by omega)]

theorem timePreferenceOf_equalSide (a b : Int) (h : (a - b).natAbs ≤ 3) :
    timePreferenceOf a b = .equalSide := by
  unfold timePreferenceOf TimeWithinDrift TimeDiffSeconds TimeDriftTolerance
  rw [if_pos (by simpa using h)]

theorem timePreferenceOf_localSide (a b : Int) (h : a - b > 3) :
    timePreferenceOf a b = .localSide := by
  unfold timePreferenceOf TimeWithinDrift IsNewerThan TimeDiffSeconds TimeDriftTolerance
  rw [if_neg (by simp only [decide_eq_true_eq]; omega),
      if_pos (by simp only [decide_eq_true_eq]; omega)]

theorem timePreferenceOf_remoteSide (a b : Int) (h : b - a > 3) :
    timePreferenceOf a b = .remoteSide := by
  unfold timePreferenceOf TimeWithinDrift IsNewerThan TimeDiffSeconds TimeDriftTolerance
  rw [if_neg (by simp only [decide_eq_true_eq]; omega),
      if_neg (by simp only [decide_eq_true_eq]; omega)]

theorem sizeRatioSuspicious_eq_false (larger smaller : Int)
    (h1 : 0 < smaller) (h2 : larger ≤ MaxSizeRatio * smaller) :
    sizeRatioSuspicious larger smaller = false := by
  unfold sizeRatioSuspicious
  rw [if_pos h1]
  simpa using by omega

theorem sizeRatioSuspicious_eq_true (larger smaller : Int)
    (h : 0 < smaller → MaxSizeRatio * smaller < larger) :
    sizeRatioSuspicious larger smaller = true := by
  unfold sizeRatioSuspicious
  split_ifs with h0
  · simpa using h h0
  · rfl

/-- With both files present and readable and differing hashes, when neither
suspicious-size early return fires, the canonical comparator's
recommendation is exactly the combination table applied to the two
preference signals. -/
theorem compareFiles_combine_rec (l r : FileMetadata)
    (hle : l.Exists = true) (hre : r.Exists = true)
    (hlr : l.Readable = true) (hrr : r.Readable = true)
    (hh : l.Hash ≠ r.Hash)
    (hsusL : ¬ (0 < l.Size - r.Size ∧ sizeRatioSuspicious l.Size r.Size = true))
    (hsusR : ¬ (l.Size - r.Size < 0 ∧ sizeRatioSuspicious r.Size l.Size = true)) :
    (CompareFiles l r).Recommendation =
      combineRec (sizePreferenceOf (l.Size - r.Size)) (timePreferenceOf l.ModTime r.ModTime) := by
  unfold CompareFiles
  rw [if_neg (by simp [hle]), if_neg (by simp [hle]), if_neg (by simp [hre]),
      if_neg (by simp [hlr]), if_neg (by simp [hrr]), if_neg hh,
      if_neg hsusL, if_neg hsusR]
  cases hsp : sizePreferenceOf (l.Size - r.Size) <;>
    cases htp : timePreferenceOf l.ModTime r.ModTime <;>
      simp [combineRec]

/-- With both files present and readable and differing hashes, a local side
that is strictly larger and suspicious conflicts immediately. -/
theorem compareFiles_suspiciousLocal (l r : FileMetadata)
    (hle : l.Exists = true) (hre : r.Exists = true)
    (hlr : l.Readable = true) (hrr : r.Readable = true)
    (hh : l.Hash ≠ r.Hash)
    (hd : 0 < l.Size - r.Size) (hs : sizeRatioSuspicious l.Size r.Size = true) :
    (CompareFiles l r).Recommendation = "CONFLICT" := by
  unfold CompareFiles
  rw [if_neg (by simp [hle]), if_neg (by simp [hle]), if_neg (by simp [hre]),
      if_neg (by simp [hlr]), if_neg (by simp [hrr]), if_neg hh,
      if_pos ⟨hd, hs⟩]
  rfl

/-- Symmetric suspicious case: remote strictly larger and suspicious. -/
theorem compareFiles_suspiciousRemote (l r : FileMetadata)
    (hle : l.Exists = true) (hre : r.Exists = true)
    (hlr : l.Readable = true) (hrr : r.Readable = true)
    (hh : l.Hash ≠ r.Hash)
    (hd : l.Size - r.Size < 0) (hs : sizeRatioSuspicious r.Size l.Size = true) :
    (CompareFiles l r).Recommendation = "CONFLICT" := by
  unfold CompareFiles
  rw [if_neg (by simp [hle]), if_neg (by simp [hle]), if_neg (by simp [hre]),
      if_neg (by simp [hlr]), if_neg (by simp [hrr]), if_neg hh,
      if_neg (by intro hc; omega), if_pos ⟨hd, hs⟩]
  rfl

/-- Inversion for the single-signal comparator: the only way it reports
`CONFLICT` is the suspicious-size escalation, with both files present,
readable and hash-distinct. -/
theorem singleSignal_conflict_inversion (l r : FileMetadata)
    (h : (CompareFilesSingleSignal l r).Recommendation = "CONFLICT") :
    l.Exists = true ∧ r.Exists = true ∧ l.Readable = true ∧ r.Readable = true ∧
    l.Hash ≠ r.Hash ∧
    ((0 < l.Size - r.Size ∧ sizeRatioSuspicious l.Size r.Size = true) ∨
     (l.Size - r.Size < 0 ∧ sizeRatioSuspicious r.Size l.Size = true)) := by
  unfold CompareFilesSingleSignal at h
  by_cases c1 : ¬ l.Exists ∧ ¬ r.Exists
  · rw [if_pos c1] at h; simp at h
  rw [if_neg c1] at h
  by_cases c2 : ¬ l.Exists
  · rw [if_pos c2] at h; simp at h
  rw [if_neg c2] at h
  by_cases c3 : ¬ r.Exists
  · rw [if_pos c3] at h; simp at h
  rw [if_neg c3] at h
  by_cases c4 : ¬ l.Readable
  · rw [if_pos c4] at h; simp at h
  rw [if_neg c4] at h
  by_cases c5 : ¬ r.Readable
  · rw [if_pos c5] at h; simp at h
  rw [if_neg c5] at h
  have hle : l.Exists = true := by simpa using c2
  have hre : r.Exists = true := by simpa using c3
  have hlr : l.Readable = true := by simpa using c4
  have hrr : r.Readable = true := by simpa using c5
  by_cases c6 : l.Hash = r.Hash
  · rw [if_pos c6] at h; simp at h
  rw [if_neg c6] at h
  refine ⟨hle, hre, hlr, hrr, c6, ?_⟩
  by_cases c7 : l.Size - r.Size ≠ 0
  · rw [if_pos c7] at h
    by_cases c8 : 0 < l.Size - r.Size
    · rw [if_pos c8] at h
      by_cases c9 : sizeRatioSuspicious l.Size r.Size = true
      · exact Or.inl ⟨c8, c9⟩
      · rw [if_neg c9] at h; simp at h
    · rw [if_neg c8] at h
      by_cases c10 : sizeRatioSuspicious r.Size l.Size = true
      · exact Or.inr ⟨by omega, c10⟩
      · rw [if_neg c10] at h; simp at h
  · rw [if_neg c7] at h
    by_cases c11 : TimeWithinDrift l.ModTime r.ModTime = true
    · rw [if_pos c11] at h; simp at h
    rw [if_neg c11] at h
    by_cases c12 : IsNewerThan l.ModTime r.ModTime = true
    · rw [if_pos c12] at h; simp at h
    · rw [if_neg c12] at h; simp at h

/-- Convenience constructor for concrete metadata snapshots. -/
def mkMeta (ex rd : Bool) (sz mt : Int) (hashHex : String) : FileMetadata :=
  { Path := "", Exists := ex, Readable := rd, Size := sz, ModTime := mt, Hash := hashHex }

/-! ## Claims about the comparator -/

/-- C1: when both files exist and are readable, the hashes differ, one side
is strictly larger with ratio (larger/smaller) at most 2.0, and the other
side's modification time is strictly more than 3 seconds newer — the two
signals favoring opposite sides — `CompareFiles` returns `CONFLICT`, in
both orientations. -/
theorem compareFiles_opposite_signals_conflict (l r : FileMetadata)
    (hle : l.Exists = true) (hre : r.Exists = true)
    (hlr : l.Readable = true) (hrr : r.Readable = true)
    (hh : l.Hash ≠ r.Hash)
    (hor : (r.Size < l.Size ∧ 0 < r.Size ∧ l.Size ≤ 2 * r.Size ∧ 3 < r.ModTime - l.ModTime) ∨
           (l.Size < r.Size ∧ 0 < l.Size ∧ r.Size ≤ 2 * l.Size ∧ 3 < l.ModTime - r.ModTime)) :
    (CompareFiles l r).Recommendation = "CONFLICT" := by
  rcases hor with ⟨h1, h2, h3, h4⟩ | ⟨h1, h2, h3, h4⟩
  · have hs := sizeRatioSuspicious_eq_false l.Size r.Size h2 (by simpa [MaxSizeRatio] using h3)
    have hsusL : ¬ (0 < l.Size - r.Size ∧ sizeRatioSuspicious l.Size r.Size = true) := by
      rw [hs]; simp
    have hsusR : ¬ (l.Size - r.Size < 0 ∧ sizeRatioSuspicious r.Size l.Size = true) := by
      intro hc; omega
    rw [compareFiles_combine_rec l r hle hre hlr hrr hh hsusL hsusR,
        sizePreferenceOf_localSide _ (by omega),
        timePreferenceOf_remoteSide _ _ (by omega)]
    rfl
  · have hs := sizeRatioSuspicious_eq_false r.Size l.Size h2 (by simpa [MaxSizeRatio] using h3)
    have hsusL : ¬ (0 < l.Size - r.Size ∧ sizeRatioSuspicious l.Size r.Size = true) := by
      intro hc; omega
    have hsusR : ¬ (l.Size - r.Size < 0 ∧ sizeRatioSuspicious r.Size l.Size = true) := by
      rw [hs]; simp
    rw [compareFiles_combine_rec l r hle hre hlr hrr hh hsusL hsusR,
        sizePreferenceOf_remoteSide _ (by omega),
        timePreferenceOf_localSide _ _ (by omega)]
    rfl

/-- C1 witness: local 2000 bytes at t=0, remote 1000 bytes at t=600 —
local larger (ratio 2.0), remote newer — conflicts. -/
theorem compareFiles_opposite_signals_conflict_witness :
    (CompareFiles (mkMeta true true 2000 0 "1a2b") (mkMeta true true 1000 600 "3c4d")).Recommendation
      = "CONFLICT" :=
  compareFiles_opposite_signals_conflict _ _ rfl rfl rfl rfl (by decide) (Or.inl (by decide))

/-- C2: the combination comparator strictly dominates the single-signal one
in conflict detection: every input the single-signal variant flags as
`CONFLICT` the combination variant flags too, and local 2000 bytes at t=0
vs remote 1000 bytes at t=600 separates them (`CONFLICT` vs `PULL`). -/
theorem combination_dominates_single_signal :
    (∀ l r : FileMetadata,
        (CompareFilesSingleSignal l r).Recommendation = "CONFLICT" →
        (CompareFiles l r).Recommendation = "CONFLICT") ∧
    (CompareFiles (mkMeta true true 2000 0 "1a2b") (mkMeta true true 1000 600 "3c4d")).Recommendation
      = "CONFLICT" ∧
    (CompareFilesSingleSignal (mkMeta true true 2000 0 "1a2b")
        (mkMeta true true 1000 600 "3c4d")).Recommendation = "PULL" := by
  refine ⟨?_, by rfl, by rfl⟩
  intro l r h
  obtain ⟨hle, hre, hlr, hrr, hh, hor⟩ := singleSignal_conflict_inversion l r h
  rcases hor with ⟨hd, hs⟩ | ⟨hd, hs⟩
  · exact compareFiles_suspiciousLocal l r hle hre hlr hrr hh hd hs
  · exact compareFiles_suspiciousRemote l r hle hre hlr hrr hh hd hs

/-- C3 counterexample: with identical hash strings but a missing local
file, `CompareFiles` returns `PUSH` with `HashMatch = false` — the
existence checks run before the hash check, so the claim's unconditional
quantifier ("regardless of the existence and readability flags") fails. -/
theorem compareFiles_hash_skip_counterexample :
    (mkMeta false false 0 0 "deadbeef").Hash = (mkMeta true true 5 0 "deadbeef").Hash ∧
    (CompareFiles (mkMeta false false 0 0 "deadbeef") (mkMeta true true 5 0 "deadbeef")).Recommendation
      = "PUSH" ∧
    (CompareFiles (mkMeta false false 0 0 "deadbeef") (mkMeta true true 5 0 "deadbeef")).Recommendation
      ≠ "SKIP" ∧
    (CompareFiles (mkMeta false false 0 0 "deadbeef") (mkMeta true true 5 0 "deadbeef")).HashMatch
      = false := by
  refine ⟨rfl, rfl, by decide, rfl⟩

/-- C3 (amended): for snapshots where both files exist and are readable,
identical content hash strings give `SKIP` with `hashMatch = true`,
regardless of any size or modification-time differences. -/
theorem compareFiles_hash_skip (l r : FileMetadata)
    (hle : l.Exists = true) (hre : r.Exists = true)
    (hlr : l.Readable = true) (hrr : r.Readable = true)
    (hh : l.Hash = r.Hash) :
    (CompareFiles l r).Recommendation = "SKIP" ∧ (CompareFiles l r).HashMatch = true := by
  unfold CompareFiles
  rw [if_neg (by simp [hle]), if_neg (by simp [hle]), if_neg (by simp [hre]),
      if_neg (by simp [hlr]), if_neg (by simp [hrr]), if_pos hh]
  exact ⟨rfl, rfl⟩

/-- C3 witness: same hash, wildly different size and time, still `SKIP`
with the hash-match flag set. -/
theorem compareFiles_hash_skip_witness :
    (CompareFiles (mkMeta true true 99999 0 "cafe") (mkMeta true true 1 50000 "cafe")).Recommendation
      = "SKIP" ∧
    (CompareFiles (mkMeta true true 99999 0 "cafe") (mkMeta true true 1 50000 "cafe")).HashMatch
      = true :=
  compareFiles_hash_skip _ _ rfl rfl rfl rfl rfl

/-- C4: with both files present, readable and hash-distinct, a strictly
larger side whose ratio exceeds 2.0 (a non-positive smaller side counting
as the 999 sentinel) conflicts immediately, whatever the modification
times; and on the spec's boundary examples, 3000 vs 1000 conflicts while
1500 vs 1000 with local newer pulls. -/
theorem compareFiles_suspicious_ratio_conflict :
    (∀ l r : FileMetadata,
        l.Exists = true → r.Exists = true → l.Readable = true → r.Readable = true →
        l.Hash ≠ r.Hash →
        ((r.Size < l.Size ∧ (0 < r.Size → MaxSizeRatio * r.Size < l.Size)) ∨
         (l.Size < r.Size ∧ (0 < l.Size → MaxSizeRatio * l.Size < r.Size))) →
        (CompareFiles l r).Recommendation = "CONFLICT") ∧
    (CompareFiles (mkMeta true true 3000 0 "1a2b") (mkMeta true true 1000 0 "3c4d")).Recommendation
      = "CONFLICT" ∧
    (CompareFiles (mkMeta true true 1500 100 "1a2b") (mkMeta true true 1000 0 "3c4d")).Recommendation
      = "PULL" := by
  refine ⟨?_, by rfl, by rfl⟩
  intro l r hle hre hlr hrr hh hor
  rcases hor with ⟨hd, hs⟩ | ⟨hd, hs⟩
  · exact compareFiles_suspiciousLocal l r hle hre hlr hrr hh (by omega)
      (sizeRatioSuspicious_eq_true _ _ hs)
  · exact compareFiles_suspiciousRemote l r hle hre hlr hrr hh (by omega)
      (sizeRatioSuspicious_eq_true _ _ hs)

/-- C5: with both files present, readable, hash-distinct and equal in
size, a time difference of at most 3 seconds (the boundary included)
yields `SKIP`; a strictly larger difference resolves to the newer side
(`PULL` if local, `PUSH` if remote). -/
theorem compareFiles_drift_tolerance (l r : FileMetadata)
    (hle : l.Exists = true) (hre : r.Exists = true)
    (hlr : l.Readable = true) (hrr : r.Readable = true)
    (hh : l.Hash ≠ r.Hash) (hsz : l.Size = r.Size) :
    ((l.ModTime - r.ModTime).natAbs ≤ 3 → (CompareFiles l r).Recommendation = "SKIP") ∧
    (3 < l.ModTime - r.ModTime → (CompareFiles l r).Recommendation = "PULL") ∧
    (3 < r.ModTime - l.ModTime → (CompareFiles l r).Recommendation = "PUSH") := by
  have hsusL : ¬ (0 < l.Size - r.Size ∧ sizeRatioSuspicious l.Size r.Size = true) := by
    intro hc; omega
  have hsusR : ¬ (l.Size - r.Size < 0 ∧ sizeRatioSuspicious r.Size l.Size = true) := by
    intro hc; omega
  have hc := compareFiles_combine_rec l r hle hre hlr hrr hh hsusL hsusR
  refine ⟨fun ht => ?_, fun ht => ?_, fun ht => ?_⟩
  · rw [hc, sizePreferenceOf_equalSide _ (by omega), timePreferenceOf_equalSide _ _ ht]
    rfl
  · rw [hc, sizePreferenceOf_equalSide _ (by omega), timePreferenceOf_localSide _ _ ht]
    rfl
  · rw [hc, sizePreferenceOf_equalSide _ (by omega), timePreferenceOf_remoteSide _ _ ht]
    rfl

/-- C5 witness: equal sizes, time difference exactly 3 seconds — treated
as equal, so `SKIP`; re-checked at 4 seconds via the same theorem. -/
theorem compareFiles_drift_tolerance_witness :
    (CompareFiles (mkMeta true true 500 3 "1a2b") (mkMeta true true 500 0 "3c4d")).Recommendation
      = "SKIP" ∧
    (CompareFiles (mkMeta true true 500 4 "1a2b") (mkMeta true true 500 0 "3c4d")).Recommendation
      = "PULL" :=
  ⟨(compareFiles_drift_tolerance (mkMeta true true 500 3 "1a2b") (mkMeta true true 500 0 "3c4d")
      rfl rfl rfl rfl (by decide) rfl).1 (by decide),
   (compareFiles_drift_tolerance (mkMeta true true 500 4 "1a2b") (mkMeta true true 500 0 "3c4d")
      rfl rfl rfl rfl (by decide) rfl).2.1 (by decide)⟩

/-! ## Atomic copy (utils.AtomicCopy, src/pkg/utils/file.go lines 19-75) -/

/-- File content, as a byte list. -/
abbrev Content := List Nat

/-- Failure schedule for one `AtomicCopy` run: which of the eight steps of
the Go function fail (`os.Open` additionally fails when the source is
absent). -/
structure CopyFailures where
  openSrc : Bool
  statSrc : Bool
  createTemp : Bool
  copyData : Bool
  syncTemp : Bool
  closeTemp : Bool
  chmodTemp : Bool
  renameTemp : Bool
deriving DecidableEq, Repr

/-- Observable outcome of `AtomicCopy`: whether it returned an error, what
the destination path holds afterwards, and whether a temporary file
remains (with its content). -/
structure CopyOutcome where
  err : Bool
  dest : Option Content
  tmp : Option Content
deriving DecidableEq, Repr

/-- The deferred cleanup of utils.AtomicCopy: on error, `os.Remove(tmpPath)`
deletes whatever the temporary file held. -/
def cleanupTemp (_tmp : Option Content) : Option Content := none

/-- utils.AtomicCopy: open source, stat it, create a temp file in the
destination directory, stream-copy, sync, close, chmod, rename.  Each step
can fail; once the temp file exists, the deferred cleanup removes it on
error; the destination is written only by the final atomic rename.  The
temp-file argument of `cleanupTemp` records the content the temp file held
when the failing step aborted the run (`some []` before the copy step has
written anything, `some data` after). -/
def AtomicCopy (src : Option Content) (f : CopyFailures) (dest0 : Option Content) : CopyOutcome :=
  match src with
  | none => { err := true, dest := dest0, tmp := none }
  | some data =>
    if f.openSrc then { err := true, dest := dest0, tmp := none }
    else if f.statSrc then { err := true, dest := dest0, tmp := none }
    else if f.createTemp then { err := true, dest := dest0, tmp := none }
    else if f.copyData then { err := true, dest := dest0, tmp := cleanupTemp (some []) }
    else if f.syncTemp then { err := true, dest := dest0, tmp := cleanupTemp (some data) }
    else if f.closeTemp then { err := true, dest := dest0, tmp := cleanupTemp (some data) }
    else if f.chmodTemp then { err := true, dest := dest0, tmp := cleanupTemp (some data) }
    else if f.renameTemp then { err := true, dest := dest0, tmp := cleanupTemp (some data) }
    else { err := false, dest := some data, tmp := none }

/-- C6: if any step of `AtomicCopy` fails, the destination is exactly as
before and the temporary file is removed; on success the destination holds
the source content; and an error is returned exactly when some step
failed. -/
theorem atomicCopy_crash_safe :
    ∀ (src dest0 : Option Content) (f : CopyFailures),
      ((AtomicCopy src f dest0).err = true →
        (AtomicCopy src f dest0).dest = dest0 ∧ (AtomicCopy src f dest0).tmp = none) ∧
      ((AtomicCopy src f dest0).err = false →
        (AtomicCopy src f dest0).dest = src ∧ (AtomicCopy src f dest0).tmp = none) ∧
      ((AtomicCopy src f dest0).err = true ↔
        (src = none ∨ f.openSrc = true ∨ f.statSrc = true ∨ f.createTemp = true ∨
         f.copyData = true ∨ f.syncTemp = true ∨ f.closeTemp = true ∨
         f.chmodTemp = true ∨ f.renameTemp = true)) := by
  intro src dest0 f
  cases src with
  | none => simp [AtomicCopy]
  | some data =>
    unfold AtomicCopy
    split_ifs <;> simp_all [cleanupTemp]

/-! ## Transfer orchestrator (sync.PullFile / sync.PushFile, src/unnamed/part_010) -/

/-- One I/O action the orchestrator performs, in program order.
`getMeta` is a metadata fetch (`GetFileMetadata`), `ensureDir` is
`utils.EnsureDir(filepath.Dir(path))` recorded by the file path whose
parent it creates, `createBackup` is `backup.CreateBackup`, `atomicCopy`
is `utils.AtomicCopy src dest`. -/
inductive SyncAction where
  | getMeta (path : String)
  | ensureDir (path : String)
  | createBackup (title : String) (source : String)
  | atomicCopy (src : String) (dest : String)
deriving DecidableEq, Repr

/-- Which action mutates the file system. -/
def SyncAction.mutating : SyncAction → Bool
  | .getMeta _ => false
  | .ensureDir _ => true
  | .createBackup _ _ => true
  | .atomicCopy _ _ => true

/-- Failure switches for the orchestrator's collaborators: metadata
fetches, directory creation, backup creation and the atomic copy. -/
structure IOEnv where
  localMetaFails : Bool
  vaultMetaFails : Bool
  ensureDirFails : Bool
  backupFails : Bool
  copyFails : Bool
deriving DecidableEq, Repr

/-- Outcome of one orchestrator operation: the comparison it returned (Go
returns nil on early errors), the error message if any, and the ordered
trace of I/O actions it performed (a failing action is still recorded as
attempted). -/
structure SyncOutcome where
  comparison : Option ComparisonResult
  errMsg : Option String
  trace : List SyncAction
deriving Repr

/-- sync.PullFile: fetch both metadata snapshots, compare, and stop unless
the recommendation is `PULL`; otherwise ensure the vault directory, back
up an existing readable vault file, and copy local over vault. -/
def PullFile (title localPath vaultPath : String)
    (localMeta vaultMeta : FileMetadata) (env : IOEnv) : SyncOutcome :=
  if env.localMetaFails then
    { comparison := none, errMsg := some "failed to get local metadata",
      trace := [SyncAction.getMeta localPath] }
  else if env.vaultMetaFails then
    { comparison := none, errMsg := some "failed to get vault metadata",
      trace := [SyncAction.getMeta localPath, SyncAction.getMeta vaultPath] }
  else if (CompareFiles localMeta vaultMeta).Recommendation ≠ "PULL" then
    { comparison := some (CompareFiles localMeta vaultMeta), errMsg := none,
      trace := [SyncAction.getMeta localPath, SyncAction.getMeta vaultPath] }
  else if env.ensureDirFails then
    { comparison := some (CompareFiles localMeta vaultMeta),
      errMsg := some "failed to create vault directory",
      trace := [SyncAction.getMeta localPath, SyncAction.getMeta vaultPath,
                SyncAction.ensureDir vaultPath] }
  else if vaultMeta.Exists ∧ vaultMeta.Readable then
    if env.backupFails then
      { comparison := some (CompareFiles localMeta vaultMeta),
        errMsg := some "failed to backup vault file",
        trace := [SyncAction.getMeta localPath, SyncAction.getMeta vaultPath,
                  SyncAction.ensureDir vaultPath, SyncAction.createBackup title vaultPath] }
    else if env.copyFails then
      { comparison := some (CompareFiles localMeta vaultMeta),
        errMsg := some "failed to copy file",
        trace := [SyncAction.getMeta localPath, SyncAction.getMeta vaultPath,
                  SyncAction.ensureDir vaultPath, SyncAction.createBackup title vaultPath,
                  SyncAction.atomicCopy localPath vaultPath] }
    else
      { comparison := some (CompareFiles localMeta vaultMeta), errMsg := none,
        trace := [SyncAction.getMeta localPath, SyncAction.getMeta vaultPath,
                  SyncAction.ensureDir vaultPath, SyncAction.createBackup title vaultPath,
                  SyncAction.atomicCopy localPath vaultPath] }
  else if env.copyFails then
    { comparison := some (CompareFiles localMeta vaultMeta),
      errMsg := some "failed to copy file",
      trace := [SyncAction.getMeta localPath, SyncAction.getMeta vaultPath,
                SyncAction.ensureDir vaultPath, SyncAction.atomicCopy localPath vaultPath] }
  else
    { comparison := some (CompareFiles localMeta vaultMeta), errMsg := none,
      trace := [SyncAction.getMeta localPath, SyncAction.getMeta vaultPath,
                SyncAction.ensureDir vaultPath, SyncAction.atomicCopy localPath vaultPath] }

/-- The push-side safety oracle's answer (process.CanSafelyWrite): an
error, or a verdict with a reason token. -/
structure SafetyAnswer where
  checkFails : Bool
  safe : Bool
  reason : String
deriving DecidableEq, Repr

/-- sync.PushFile: consult the safety oracle first (no I/O at all if it
says unsafe and force is not set); then fetch vault and local metadata,
compare, and gate on the recommendation — `PULL` and `CONFLICT` abort
unless forced, `SKIP` is a silent no-op — before ensuring the local
directory, backing up an existing readable local file, and copying vault
over local. -/
def PushFile (title vaultPath localPath : String) (force : Bool)
    (localMeta vaultMeta : FileMetadata) (oracle : SafetyAnswer) (env : IOEnv) : SyncOutcome :=
  if oracle.checkFails then
    { comparison := none, errMsg := some "failed to check if safe to write", trace := [] }
  else if ¬ oracle.safe ∧ ¬ force then
    { comparison := none,
      errMsg := some ("cannot push: " ++ oracle.reason ++ " (use --force to override)"),
      trace := [] }
  else if env.vaultMetaFails then
    { comparison := none, errMsg := some "failed to get vault metadata",
      trace := [SyncAction.getMeta vaultPath] }
  else if env.localMetaFails then
    { comparison := none, errMsg := some "failed to get local metadata",
      trace := [SyncAction.getMeta vaultPath, SyncAction.getMeta localPath] }
  else if (CompareFiles localMeta vaultMeta).Recommendation ≠ "PUSH" ∧
      (CompareFiles localMeta vaultMeta).Recommendation = "PULL" ∧ ¬ force then
    { comparison := some (CompareFiles localMeta vaultMeta),
      errMsg := some "local file appears newer than vault, skipping push (use --force to override)",
      trace := [SyncAction.getMeta vaultPath, SyncAction.getMeta localPath] }
  else if (CompareFiles localMeta vaultMeta).Recommendation ≠ "PUSH" ∧
      (CompareFiles localMeta vaultMeta).Recommendation = "SKIP" then
    { comparison := some (CompareFiles localMeta vaultMeta), errMsg := none,
      trace := [SyncAction.getMeta vaultPath, SyncAction.getMeta localPath] }
  else if (CompareFiles localMeta vaultMeta).Recommendation ≠ "PUSH" ∧
      (CompareFiles localMeta vaultMeta).Recommendation = "CONFLICT" ∧ ¬ force then
    { comparison := some (CompareFiles localMeta vaultMeta),
      errMsg := some "file conflict detected (use --force to override)",
      trace := [SyncAction.getMeta vaultPath, SyncAction.getMeta localPath] }
  else if env.ensureDirFails then
    { comparison := some (CompareFiles localMeta vaultMeta),
      errMsg := some "failed to create local directory",
      trace := [SyncAction.getMeta vaultPath, SyncAction.getMeta localPath,
                SyncAction.ensureDir localPath] }
  else if localMeta.Exists ∧ localMeta.Readable then
    if env.backupFails then
      { comparison := some (CompareFiles localMeta vaultMeta),
        errMsg := some "failed to backup local file",
        trace := [SyncAction.getMeta vaultPath, SyncAction.getMeta localPath,
                  SyncAction.ensureDir localPath, SyncAction.createBackup title localPath] }
    else if env.copyFails then
      { comparison := some (CompareFiles localMeta vaultMeta),
        errMsg := some "failed to copy file",
        trace := [SyncAction.getMeta vaultPath, SyncAction.getMeta localPath,
                  SyncAction.ensureDir localPath, SyncAction.createBackup title localPath,
                  SyncAction.atomicCopy vaultPath localPath] }
    else
      { comparison := some (CompareFiles localMeta vaultMeta), errMsg := none,
        trace := [SyncAction.getMeta vaultPath, SyncAction.getMeta localPath,
                  SyncAction.ensureDir localPath, SyncAction.createBackup title localPath,
                  SyncAction.atomicCopy vaultPath localPath] }
  else if env.copyFails then
    { comparison := some (CompareFiles localMeta vaultMeta),
      errMsg := some "failed to copy file",
      trace := [SyncAction.getMeta vaultPath, SyncAction.getMeta localPath,
                SyncAction.ensureDir localPath, SyncAction.atomicCopy vaultPath localPath] }
  else
    { comparison := some (CompareFiles localMeta vaultMeta), errMsg := none,
      trace := [SyncAction.getMeta vaultPath, SyncAction.getMeta localPath,
                SyncAction.ensureDir localPath, SyncAction.atomicCopy vaultPath localPath] }

/-- C7: the push gate. (1) unsafe and unforced aborts naming the oracle's
reason, with no I/O at all; (2) a `SKIP` verdict returns success without
mutating anything; (3) a `PULL` or `CONFLICT` verdict aborts with an error
and no mutation when not forced; (4) with force set the copy proceeds
regardless of such a verdict. -/
theorem push_gate_behavior :
    (∀ (title vp lp : String) (force : Bool) (lm vm : FileMetadata)
        (oracle : SafetyAnswer) (env : IOEnv),
       oracle.checkFails = false → oracle.safe = false → force = false →
       PushFile title vp lp force lm vm oracle env =
         { comparison := none,
           errMsg := some ("cannot push: " ++ oracle.reason ++ " (use --force to override)"),
           trace := [] }) ∧
    (∀ (title vp lp : String) (force : Bool) (lm vm : FileMetadata)
        (oracle : SafetyAnswer) (env : IOEnv),
       (CompareFiles lm vm).Recommendation = "SKIP" →
       oracle.checkFails = false → (oracle.safe = true ∨ force = true) →
       env.vaultMetaFails = false → env.localMetaFails = false →
       (PushFile title vp lp force lm vm oracle env).errMsg = none ∧
       (PushFile title vp lp force lm vm oracle env).trace.filter SyncAction.mutating = []) ∧
    (∀ (title vp lp : String) (force : Bool) (lm vm : FileMetadata)
        (oracle : SafetyAnswer) (env : IOEnv),
       ((CompareFiles lm vm).Recommendation = "PULL" ∨
        (CompareFiles lm vm).Recommendation = "CONFLICT") →
       force = false → oracle.checkFails = false → oracle.safe = true →
       env.vaultMetaFails = false → env.localMetaFails = false →
       (PushFile title vp lp force lm vm oracle env).errMsg.isSome = true ∧
       (PushFile title vp lp force lm vm oracle env).trace.filter SyncAction.mutating = []) ∧
    (∀ (title vp lp : String) (force : Bool) (lm vm : FileMetadata)
        (oracle : SafetyAnswer) (env : IOEnv),
       ((CompareFiles lm vm).Recommendation = "PULL" ∨
        (CompareFiles lm vm).Recommendation = "CONFLICT") →
       force = true → oracle.checkFails = false →
       env.vaultMetaFails = false → env.localMetaFails = false →
       env.ensureDirFails = false → env.backupFails = false →
       SyncAction.atomicCopy vp lp ∈ (PushFile title vp lp force lm vm oracle env).trace) := by
  refine ⟨?_, ?_, ?_, ?_⟩
  · intro title vp lp force lm vm oracle env hcf hsafe hforce
    unfold PushFile
    rw [if_neg (by simp [hcf]), if_pos ⟨by simp [hsafe], by simp [hforce]⟩]
  · intro title vp lp force lm vm oracle env hrec hcf hsf hvm hlm
    unfold PushFile
    rw [if_neg (by simp [hcf]),
        if_neg (by rcases hsf with h | h <;> simp [h]),
        if_neg (by simp [hvm]), if_neg (by simp [hlm]),
        if_neg (by simp [hrec]),
        if_pos ⟨by simp [hrec], hrec⟩]
    exact ⟨rfl, rfl⟩
  · intro title vp lp force lm vm oracle env hrec hforce hcf hsafe hvm hlm
    unfold PushFile
    rcases hrec with hrec | hrec
    · rw [if_neg (by simp [hcf]), if_neg (by simp [hsafe]),
          if_neg (by simp [hvm]), if_neg (by simp [hlm]),
          if_pos ⟨by simp [hrec], hrec, by simp [hforce]⟩]
      exact ⟨rfl, rfl⟩
    · rw [if_neg (by simp [hcf]), if_neg (by simp [hsafe]),
          if_neg (by simp [hvm]), if_neg (by simp [hlm]),
          if_neg (by simp [hrec]), if_neg (by simp [hrec]),
          if_pos ⟨by simp [hrec], hrec, by simp [hforce]⟩]
      exact ⟨rfl, rfl⟩
  · intro title vp lp force lm vm oracle env hrec hforce hcf hvm hlm hdir hbk
    unfold PushFile
    rw [if_neg (by simp [hcf]), if_neg (by simp [hforce]),
        if_neg (by simp [hvm]), if_neg (by simp [hlm]),
        if_neg (by simp [hforce]),
        if_neg (by rcases hrec with h | h <;> simp [h]),
        if_neg (by simp [hforce]),
        if_neg (by simp [hdir])]
    split_ifs with h1 h2 h3 <;> simp_all

/-- C8: `PullFile` mutates nothing when the verdict is not `PULL` (it
returns the verdict unchanged with no error), and in both orchestrator
operations, whenever the copy is performed and the destination file exists
and is readable, a backup of the destination is created before the copy
(the trace contains backup-then-copy in that order). -/
theorem pull_no_mutation_and_backup_before_copy :
    (∀ (title lp vp : String) (lm vm : FileMetadata) (env : IOEnv),
       env.localMetaFails = false → env.vaultMetaFails = false →
       (CompareFiles lm vm).Recommendation ≠ "PULL" →
       (PullFile title lp vp lm vm env).comparison = some (CompareFiles lm vm) ∧
       (PullFile title lp vp lm vm env).errMsg = none ∧
       (PullFile title lp vp lm vm env).trace.filter SyncAction.mutating = []) ∧
    (∀ (title lp vp : String) (lm vm : FileMetadata) (env : IOEnv),
       vm.Exists = true → vm.Readable = true →
       SyncAction.atomicCopy lp vp ∈ (PullFile title lp vp lm vm env).trace →
       List.Sublist [SyncAction.createBackup title vp, SyncAction.atomicCopy lp vp]
         (PullFile title lp vp lm vm env).trace) ∧
    (∀ (title vp lp : String) (force : Bool) (lm vm : FileMetadata)
        (oracle : SafetyAnswer) (env : IOEnv),
       lm.Exists = true → lm.Readable = true →
       SyncAction.atomicCopy vp lp ∈ (PushFile title vp lp force lm vm oracle env).trace →
       List.Sublist [SyncAction.createBackup title lp, SyncAction.atomicCopy vp lp]
         (PushFile title vp lp force lm vm oracle env).trace) := by
  refine ⟨?_, ?_, ?_⟩
  · intro title lp vp lm vm env hlm hvm hrec
    unfold PullFile
    rw [if_neg (by simp [hlm]), if_neg (by simp [hvm]), if_pos hrec]
    exact ⟨rfl, rfl, rfl⟩
  · intro title lp vp lm vm env hex hrd hcopy
    unfold PullFile at hcopy ⊢
    by_cases h1 : env.localMetaFails = true
    · rw [if_pos h1] at hcopy; simp at hcopy
    rw [if_neg h1] at hcopy ⊢
    by_cases h2 : env.vaultMetaFails = true
    · rw [if_pos h2] at hcopy; simp at hcopy
    rw [if_neg h2] at hcopy ⊢
    by_cases h3 : (CompareFiles lm vm).Recommendation ≠ "PULL"
    · rw [if_pos h3] at hcopy; simp at hcopy
    rw [if_neg h3] at hcopy ⊢
    by_cases h4 : env.ensureDirFails = true
    · rw [if_pos h4] at hcopy; simp at hcopy
    rw [if_neg h4] at hcopy ⊢
    rw [if_pos ⟨hex, hrd⟩] at hcopy ⊢
    by_cases h5 : env.backupFails = true
    · rw [if_pos h5] at hcopy; simp at hcopy
    rw [if_neg h5] at hcopy ⊢
    split_ifs <;>
      exact .cons _ (.cons _ (.cons _ (.cons₂ _ (.cons₂ _ .slnil))))
  · intro title vp lp force lm vm oracle env hex hrd hcopy
    unfold PushFile at hcopy ⊢
    by_cases h1 : oracle.checkFails = true
    · rw [if_pos h1] at hcopy; simp at hcopy
    rw [if_neg h1] at hcopy ⊢
    by_cases h2 : ¬ oracle.safe ∧ ¬ force
    · rw [if_pos h2] at hcopy; simp at hcopy
    rw [if_neg h2] at hcopy ⊢
    by_cases h3 : env.vaultMetaFails = true
    · rw [if_pos h3] at hcopy; simp at hcopy
    rw [if_neg h3] at hcopy ⊢
    by_cases h4 : env.localMetaFails = true
    · rw [if_pos h4] at hcopy; simp at hcopy
    rw [if_neg h4] at hcopy ⊢
    by_cases h5 : (CompareFiles lm vm).Recommendation ≠ "PUSH" ∧
        (CompareFiles lm vm).Recommendation = "PULL" ∧ ¬ force = true
    · rw [if_pos h5] at hcopy; simp at hcopy
    rw [if_neg h5] at hcopy ⊢
    by_cases h6 : (CompareFiles lm vm).Recommendation ≠ "PUSH" ∧
        (CompareFiles lm vm).Recommendation = "SKIP"
    · rw [if_pos h6] at hcopy; simp at hcopy
    rw [if_neg h6] at hcopy ⊢
    by_cases h7 : (CompareFiles lm vm).Recommendation ≠ "PUSH" ∧
        (CompareFiles lm vm).Recommendation = "CONFLICT" ∧ ¬ force = true
    · rw [if_pos h7] at hcopy; simp at hcopy
    rw [if_neg h7] at hcopy ⊢
    by_cases h8 : env.ensureDirFails = true
    · rw [if_pos h8] at hcopy; simp at hcopy
    rw [if_neg h8] at hcopy ⊢
    rw [if_pos ⟨hex, hrd⟩] at hcopy ⊢
    by_cases h9 : env.backupFails = true
    · rw [if_pos h9] at hcopy; simp at hcopy
    rw [if_neg h9] at hcopy ⊢
    split_ifs <;>
      exact .cons _ (.cons _ (.cons _ (.cons₂ _ (.cons₂ _ .slnil))))

/-! ## Backup store listing and retention (backup package, src/unnamed/part_006) -/

/-- One entry of `os.ReadDir` on the history directory. -/
structure DirEntry where
  name : String
  isDir : Bool
deriving DecidableEq, Repr

instance : IsTotal String (fun a b => b ≤ a) := ⟨fun a b => le_total b a⟩

instance : IsTrans String (fun a b => b ≤ a) := ⟨fun _ _ _ hab hbc => le_trans hbc hab⟩

/-- Descending filename sort: Go sorts with the less function
`backups[i] > backups[j]`.  Go compares strings byte-wise; UTF-8 byte
order agrees with the codepoint order of Lean's `String` order. -/
def sortDescending (names : List String) : List String :=
  List.insertionSort (fun a b => b ≤ a) names

/-- backup.ListBackups: `none` models a history directory that does not
exist (`os.IsNotExist` → empty list, not an error); otherwise the
directory entries are read, sub-directories skipped, and the names sorted
descending. -/
def ListBackups (histDir : Option (List DirEntry)) : List String :=
  match histDir with
  | none => []
  | some entries =>
      sortDescending ((entries.filter (fun e => !e.isDir)).map DirEntry.name)

/-- backup.CleanupOldBackups, by the names it removes: nothing when the
count is at or below the limit, otherwise every entry after the first
`limit` positions of the descending order.  (Go's `limit` is an `int`;
the function is only ever called with the non-negative configured
history limit.) -/
def CleanupOldBackups (histDir : Option (List DirEntry)) (limit : Nat) : List String :=
  if (ListBackups histDir).length ≤ limit then []
  else (ListBackups histDir).drop limit

theorem listBackups_sorted (histDir : Option (List DirEntry)) :
    (ListBackups histDir).Sorted (fun a b => b ≤ a) := by
  cases histDir with
  | none => simp [ListBackups, List.Sorted]
  | some entries => exact List.sorted_insertionSort _ _

/-- C9: `ListBackups` returns the non-directory entries sorted by filename
descending, an absent history directory giving the empty list; and
`CleanupOldBackups` is a no-op at or below the limit, otherwise deletes
exactly the entries after the first `limit` positions, so the `limit`
lexicographically greatest names survive. -/
theorem listBackups_cleanup_spec :
    ListBackups none = [] ∧
    (∀ entries : List DirEntry,
       (ListBackups (some entries)).Sorted (fun a b => b ≤ a) ∧
       (ListBackups (some entries)).Perm
         ((entries.filter (fun e => !e.isDir)).map DirEntry.name)) ∧
    (∀ (histDir : Option (List DirEntry)) (limit : Nat),
       ((ListBackups histDir).length ≤ limit → CleanupOldBackups histDir limit = []) ∧
       CleanupOldBackups histDir limit = (ListBackups histDir).drop limit ∧
       (ListBackups histDir).take limit ++ CleanupOldBackups histDir limit
         = ListBackups histDir ∧
       (∀ a ∈ (ListBackups histDir).take limit, ∀ b ∈ CleanupOldBackups histDir limit,
          b ≤ a)) := by
  refine ⟨rfl, ?_, ?_⟩
  · intro entries
    exact ⟨listBackups_sorted _, List.perm_insertionSort _ _⟩
  · intro histDir limit
    refine ⟨fun h => by simp [CleanupOldBackups, h], ?_, ?_, ?_⟩
    · unfold CleanupOldBackups
      split_ifs with h
      · rw [List.drop_eq_nil_iff.mpr h]
      · rfl
    · unfold CleanupOldBackups
      split_ifs with h
      · rw [List.append_nil]
        exact List.take_of_length_le h
      · exact List.take_append_drop _ _
    · intro a ha b hb
      unfold CleanupOldBackups at hb
      split_ifs at hb with h
      · simp at hb
      · have hs := listBackups_sorted histDir
        rw [← List.take_append_drop limit (ListBackups histDir)] at hs
        have := (List.pairwise_append.mp hs).2.2
        exact this a ha b hb

/-! ## Backup naming (backup.CreateBackup, src/unnamed/part_006 lines 56-89) -/

/-- Zero-padded decimal, width 2. -/
def pad2 (n : Nat) : String := if n < 10 then "0" ++ toString n else toString n

/-- Zero-padded decimal, width 4. -/
def pad4 (n : Nat) : String :=
  if n < 10 then "000" ++ toString n
  else if n < 100 then "00" ++ toString n
  else if n < 1000 then "0" ++ toString n
  else toString n

/-- Gregorian (year, month, day) from days since 1970-01-01, by the
standard era-of-400-years civil-calendar algorithm. -/
def civilFromDays (z : Nat) : Nat × Nat × Nat :=
  let zs := z + 719468
  let era := zs / 146097
  let doe := zs % 146097
  let yoe := (doe - doe / 1460 + doe / 36524 - doe / 146096) / 365
  let doy := doe - (365 * yoe + yoe / 4 - yoe / 100)
  let mp := (5 * doy + 2) / 153
  let d := doy - (153 * mp + 2) / 5 + 1
  let m := if mp < 10 then mp + 3 else mp - 9
  let y := if m ≤ 2 then yoe + era * 400 + 1 else yoe + era * 400
  (y, m, d)

/-- `time.Now().UTC().Format("2006-01-02T15-04-05Z")` at a given whole
second: fixed-width, second-precision, lexicographically sortable. -/
def formatBackupTimestamp (sec : Nat) : String :=
  let days := sec / 86400
  let rem := sec % 86400
  let ymd := civilFromDays days
  pad4 ymd.1 ++ "-" ++ pad2 ymd.2.1 ++ "-" ++ pad2 ymd.2.2 ++ "T" ++
    pad2 (rem / 3600) ++ "-" ++ pad2 (rem % 3600 / 60) ++ "-" ++ pad2 (rem % 60) ++ "Z"

/-- The backup filename `<timestamp>-<base>`; the clock (Go reads it in
nanoseconds) enters only through the format's whole-second truncation. -/
def backupFileName (nowUnixNano : Nat) (sourceBase : String) : String :=
  formatBackupTimestamp (nowUnixNano / 1000000000) ++ "-" ++ sourceBase

/-- The backup path `<vault>/<title>/_history/<filename>`; the vault root
(executable-relative) is fixed for the life of the process. -/
def backupPath (vaultRoot title : String) (nowUnixNano : Nat) (sourceBase : String) : String :=
  vaultRoot ++ "/" ++ title ++ "/_history/" ++ backupFileName nowUnixNano sourceBase

/-- The history directory as an association of filename to content.
`utils.AtomicCopy` onto an existing name atomically replaces that entry
(the final `os.Rename` overwrites the path); onto a fresh name it appends
a new entry. -/
def storeWrite (hist : List (String × Content)) (nm : String) (c : Content) :
    List (String × Content) :=
  if hist.any (fun p => p.1 = nm) then
    hist.map (fun p => if p.1 = nm then (nm, c) else p)
  else hist ++ [(nm, c)]

/-- Content stored in the history directory under a filename. -/
def storeLookup (hist : List (String × Content)) (nm : String) : Option Content :=
  (hist.find? (fun p => p.1 = nm)).map Prod.snd

/-- backup.CreateBackup, over the history store: builds the timestamped
path and atomically copies the source content into it.  Returns the
backup path and the updated store. -/
def CreateBackup (vaultRoot title : String) (nowUnixNano : Nat) (sourceBase : String)
    (content : Content) (hist : List (String × Content)) :
    String × List (String × Content) :=
  (backupPath vaultRoot title nowUnixNano sourceBase,
   storeWrite hist (backupFileName nowUnixNano sourceBase) content)

theorem storeWrite_cons_ne (p : String × Content) (t : List (String × Content))
    (nm : String) (c : Content) (hp : p.1 ≠ nm) :
    storeWrite (p :: t) nm c = p :: storeWrite t nm c := by
  unfold storeWrite
  by_cases ht : t.any (fun q => q.1 = nm) = true
  · simp [List.any_cons, hp, ht]
  · simp [List.any_cons, hp, ht]

theorem storeWrite_cons_eq (p : String × Content) (t : List (String × Content))
    (nm : String) (c : Content) (hp : p.1 = nm) :
    storeWrite (p :: t) nm c =
      (nm, c) :: t.map (fun q => if q.1 = nm then (nm, c) else q) := by
  simp [storeWrite, List.any_cons, hp]

theorem any_storeWrite (hist : List (String × Content)) (nm : String) (c : Content) :
    (storeWrite hist nm c).any (fun p => p.1 = nm) = true := by
  induction hist with
  | nil => simp [storeWrite]
  | cons p t ih =>
    by_cases hp : p.1 = nm
    · rw [storeWrite_cons_eq p t nm c hp]
      simp
    · rw [storeWrite_cons_ne p t nm c hp]
      simp [List.any_cons, ih]

theorem storeLookup_storeWrite (hist : List (String × Content)) (nm : String) (c : Content) :
    storeLookup (storeWrite hist nm c) nm = some c := by
  induction hist with
  | nil => simp [storeWrite, storeLookup]
  | cons p t ih =>
    by_cases hp : p.1 = nm
    · rw [storeWrite_cons_eq p t nm c hp]
      simp [storeLookup]
    · rw [storeWrite_cons_ne p t nm c hp]
      unfold storeLookup at ih ⊢
      simp only [List.find?_cons, hp]
      simpa [hp] using ih

theorem length_storeWrite_again (hist : List (String × Content)) (nm : String)
    (c1 c2 : Content) :
    (storeWrite (storeWrite hist nm c1) nm c2).length = (storeWrite hist nm c1).length := by
  have h := any_storeWrite hist nm c1
  conv_lhs => rw [storeWrite, if_pos h]
  exact List.length_map _ _

/-- C10: the backup path is a function only of the title, the source
file's base name and the wall-clock second (format truncation of the
nanosecond clock); two `CreateBackup` calls within the same UTC second
therefore produce the identical path, and the second call's atomic copy
replaces the first backup in place — the history gains no entry and the
name now holds the second call's content. -/
theorem createBackup_same_second_replaces (vaultRoot title : String)
    (ns1 ns2 : Nat) (base : String) (c1 c2 : Content)
    (hist : List (String × Content))
    (hsec : ns1 / 1000000000 = ns2 / 1000000000) :
    (CreateBackup vaultRoot title ns1 base c1 hist).1
      = (CreateBackup vaultRoot title ns2 base c2 hist).1 ∧
    ((CreateBackup vaultRoot title ns2 base c2
        (CreateBackup vaultRoot title ns1 base c1 hist).2).2).length
      = ((CreateBackup vaultRoot title ns1 base c1 hist).2).length ∧
    storeLookup ((CreateBackup vaultRoot title ns2 base c2
        (CreateBackup vaultRoot title ns1 base c1 hist).2).2)
      (backupFileName ns1 base) = some c2 := by
  have hname : backupFileName ns1 base = backupFileName ns2 base := by
    unfold backupFileName
    rw [hsec]
  refine ⟨?_, ?_, ?_⟩
  · unfold CreateBackup backupPath
    rw [hname]
  · unfold CreateBackup
    simp only
    rw [← hname]
    exact length_storeWrite_again hist (backupFileName ns1 base) c1 c2
  · unfold CreateBackup
    simp only
    rw [← hname]
    exact storeLookup_storeWrite _ _ _

/-- C10 witness: two backups of the same source 0.86s apart inside unix
second 5, with different contents: same path, history size unchanged, the
later content stored. -/
theorem createBackup_same_second_replaces_witness :
    (CreateBackup "v" "th08" 5123456789 "score.dat" [0] []).1
      = (CreateBackup "v" "th08" 5987654321 "score.dat" [1] []).1 ∧
    ((CreateBackup "v" "th08" 5987654321 "score.dat" [1]
        (CreateBackup "v" "th08" 5123456789 "score.dat" [0] []).2).2).length
      = ((CreateBackup "v" "th08" 5123456789 "score.dat" [0] []).2).length ∧
    storeLookup ((CreateBackup "v" "th08" 5987654321 "score.dat" [1]
        (CreateBackup "v" "th08" 5123456789 "score.dat" [0] []).2).2)
      (backupFileName 5123456789 "score.dat") = some [1] :=
  createBackup_same_second_replaces "v" "th08" 5123456789 5987654321 "score.dat"
    [0] [1] [] (by decide)
